import Mathlib

/-
  Verification of the CrawlingCluster repository's specification.

  Shallow embedding of:
  - the BFS crawl loops (crawling/src/driver/deep/base_crawler.py and
    relevant_crawler.py),
  - the retry strategy (databases/session/retry.py),
  - the session manager and cookie manager (databases/session/manager.py),
  - the session storage (databases/session/storage.py),
  - the session validator (databases/session/validator.py),
  - the robot detector (crawling/src/utils/anti/detector.py),
  - the session-restart routines (crawling/src/utils/anti/human_like.py and
    crawling/src/utils/anti_bot_utils.py).

  External effects (HTTP fetches, the Selenium driver, Redis, randomness,
  TF-IDF vectorization) are modelled as explicit oracle parameters; the
  control flow of each embedded function follows the Python source line by
  line.
-/

namespace CrawlCluster

/-- Boolean test that `p` is a prefix of the first list (character lists). -/
def listStarts : List Char → List Char → Bool
  | _, [] => true
  | [], _ :: _ => false
  | c :: cs, p :: ps => c == p && listStarts cs ps

/-- Boolean substring containment on character lists: Python's `p in t`. -/
def hasSub : List Char → List Char → Bool
  | [], p => listStarts [] p
  | c :: cs, p => listStarts (c :: cs) p || hasSub cs p

/-- Python's `pat in text` on strings. -/
def strHasSub (text pat : String) : Bool :=
  hasSub text.data pat.data

/-- Python's `s.lower()`, as a character list. -/
def lowerData (s : String) : List Char :=
  s.data.map Char.toLower

/-! ## Crawl engine (base_crawler.py / relevant_crawler.py) -/

/-- One entry of `parse_links`' `data_list` (a `data_format` dict). -/
structure LinkRecord where
  title : String
  link : String
  date : String
deriving DecidableEq, Repr

/-- The outcome of fetching and parsing one URL: the extracted absolute
links (`new_links`, a Python set, hence listed without duplicates by the
oracle) and the `url_format` record list.  A fetch whose `content` is falsy
is `none`.  This packages `AsyncRequestHTML(...).async_fetch_html` together
with `DeepAsyncWebCrawler.parse_links`, both of which are pure page-level
operations the crawl loop only observes through these two values. -/
structure Page where
  links : List String
  records : List LinkRecord
deriving DecidableEq, Repr

/-- The mutable state of one crawl run: `visited_urls`, `url_queue` (FIFO
with `(url, depth)` entries), and `results`.  The Python `results` dict is
modelled as an association list to which each `self.results[url] = fmt`
assignment prepends; key uniqueness is then a theorem, not a structural
given.  `fetchLog` is a ghost field recording every `(url, depth)` for
which a network fetch was issued; it does not influence the computation. -/
structure CrawlState where
  visited : List String
  queue : List (String × Nat)
  results : List (String × List LinkRecord)
  fetchLog : List (String × Nat)
deriving DecidableEq, Repr

/-- The crawler's constructor state: empty visited set, the start URL at
depth 0 in the queue, empty results. -/
def initState (startUrl : String) : CrawlState :=
  { visited := [], queue := [(startUrl, 0)], results := [], fetchLog := [] }

/-- One iteration of `DeepAsyncWebCrawler.crawl`'s while-loop body
(base_crawler.py lines 83-98): pop `(current_url, depth)`; discard if
already visited or `depth > max_depth`; otherwise mark visited, fetch; on
content, and only when `depth < max_depth`, record the parsed links under
`results[current_url]` and push every extracted link not yet visited at
`depth + 1`. -/
def baseStep (web : String → Option Page) (maxDepth : Nat) (s : CrawlState) : CrawlState :=
  match s.queue with
  | [] => s
  | (url, depth) :: rest =>
    if url ∈ s.visited ∨ maxDepth < depth then
      { s with queue := rest }
    else
      match web url with
      | none =>
        { visited := url :: s.visited, queue := rest,
          results := s.results, fetchLog := (url, depth) :: s.fetchLog }
      | some page =>
        if depth < maxDepth then
          { visited := url :: s.visited,
            queue := rest ++ (page.links.filter
                (fun l => !((url :: s.visited).contains l))).map (fun l => (l, depth + 1)),
            results := (url, page.records) :: s.results,
            fetchLog := (url, depth) :: s.fetchLog }
        else
          { visited := url :: s.visited, queue := rest,
            results := s.results, fetchLog := (url, depth) :: s.fetchLog }

/-- `RelevantAsyncWebCrawler.is_relevant_url` (relevant_crawler.py lines
68-79): case-insensitive substring match of any keyword in the URL. -/
def isRelevantUrl (keywords : List String) (url : String) : Bool :=
  keywords.any fun kw => hasSub (lowerData url) (lowerData kw)

/-- Stable same-domain-first ordering of `sorted(new_links, key = 0/1)`
(relevant_crawler.py lines 153-156); `netloc` abstracts
`urlparse(...).netloc`. -/
def sortSameDomain (netloc : String → String) (base : String) (links : List String) : List String :=
  links.filter (fun l => netloc l == netloc base)
    ++ links.filter (fun l => !(netloc l == netloc base))

/-- One iteration of `RelevantAsyncWebCrawler.crawl`'s while-loop body
(relevant_crawler.py lines 123-160).  Differences from `baseStep`: a
pre-fetch URL-relevance gate skipped at depth 0, a post-fetch content gate
`depth == 0 or is_relevant_content(...)` (the oracle `contentRelevant`
gives `is_relevant_content`'s verdict for the page fetched at each URL),
and same-domain-first ordering of the pushed links. -/
def relevantStep (web : String → Option Page) (netloc : String → String)
    (contentRelevant : String → Bool) (keywords : List String) (maxDepth : Nat)
    (s : CrawlState) : CrawlState :=
  match s.queue with
  | [] => s
  | (url, depth) :: rest =>
    if url ∈ s.visited ∨ maxDepth < depth then
      { s with queue := rest }
    else if !(isRelevantUrl keywords url) && decide (0 < depth) then
      { s with queue := rest }
    else
      match web url with
      | none =>
        { visited := url :: s.visited, queue := rest,
          results := s.results, fetchLog := (url, depth) :: s.fetchLog }
      | some page =>
        if depth = 0 ∨ contentRelevant url then
          if depth < maxDepth then
            { visited := url :: s.visited,
              queue := rest ++ ((sortSameDomain netloc url page.links).filter
                  (fun l => !((url :: s.visited).contains l))).map (fun l => (l, depth + 1)),
              results := (url, page.records) :: s.results,
              fetchLog := (url, depth) :: s.fetchLog }
          else
            { visited := url :: s.visited, queue := rest,
              results := s.results, fetchLog := (url, depth) :: s.fetchLog }
        else
          { visited := url :: s.visited, queue := rest,
            results := s.results, fetchLog := (url, depth) :: s.fetchLog }

/-- The crawl while-loop (`while not self.url_queue.empty() and
len(self.visited_urls) < self.max_pages`), sequentialized: `fuel` bounds
the number of iterations, so `crawlRun step maxPages k (initState u)` for
increasing `k` enumerates exactly the reachable states of the loop. -/
def crawlRun (step : CrawlState → CrawlState) (maxPages : Nat) : Nat → CrawlState → CrawlState
  | 0, s => s
  | fuel + 1, s =>
    if s.queue = [] ∨ maxPages ≤ s.visited.length then s
    else crawlRun step maxPages fuel (step s)

/-- Dedup invariant of a crawl state: visited set has no duplicates, each
URL occurs at most once as a `results` key, each URL is fetched at most
once, and results/fetch-log keys come from the visited set. -/
def GoodState (s : CrawlState) : Prop :=
  s.visited.Nodup
  ∧ (s.results.map Prod.fst).Nodup
  ∧ (s.fetchLog.map Prod.fst).Nodup
  ∧ (∀ u, u ∈ s.results.map Prod.fst → u ∈ s.visited)
  ∧ (∀ u, u ∈ s.fetchLog.map Prod.fst → u ∈ s.visited)

/-- Depth invariant: every frontier entry and every fetched entry has depth
at most `maxDepth`. -/
def DepthOk (maxDepth : Nat) (s : CrawlState) : Prop :=
  (∀ e ∈ s.queue, e.2 ≤ maxDepth) ∧ (∀ e ∈ s.fetchLog, e.2 ≤ maxDepth)

/-- Concrete web for the frontier-duplication counterexample: page A links
to B and C, page B links to C. -/
def webDup : String → Option Page := fun u =>
  if u = "A" then some { links := ["B", "C"], records := [] }
  else if u = "B" then some { links := ["C"], records := [] }
  else none

/-- Concrete web for the seed-inclusion counterexample: the seed page A is
fetchable (truthy content, one extracted record), no outbound links. -/
def webSeed : String → Option Page := fun u =>
  if u = "A" then some { links := [], records := [{ title := "t", link := "A", date := "" }] }
  else none

/-- Trivial netloc oracle for concrete runs. -/
def netloc0 : String → String := fun _ => ""

/-! ## RetryStrategy (databases/session/retry.py) -/

/-- The while-loop of `RetryStrategy.execute_with_retry` (retry.py lines
31-55).  `op i` runs the wrapped callable at attempt number `i` (0-based);
`retriesLeft` is `max_retries - retries`.  Returns the outcome, the list
of performed sleeps, and the list of attempt indices actually invoked.
On failure with retries remaining the code sleeps `delay`, multiplies
`delay` by the backoff factor and retries; once retries are exhausted it
breaks and re-raises the last exception. -/
def retryGo (op : Nat → Except E A) (backoff : ℚ) :
    Nat → ℚ → Nat → Except E A × List ℚ × List Nat
  | 0, _, i =>
    match op i with
    | .ok a => (.ok a, [], [i])
    | .error e => (.error e, [], [i])
  | rl + 1, delay, i =>
    match op i with
    | .ok a => (.ok a, [], [i])
    | .error _ =>
      let r := retryGo op backoff rl (delay * backoff) (i + 1)
      (r.1, delay :: r.2.1, i :: r.2.2)

/-- The sleep sequence produced by the backoff loop: `n` sleeps starting
at `delay`, multiplying by `b` each time. -/
def backoffSleeps (b : ℚ) : Nat → ℚ → List ℚ
  | 0, _ => []
  | n + 1, delay => delay :: backoffSleeps b n (delay * b)

/-- Attempt indices `i, i+1, ..., i+n` of a run with `n` retries. -/
def attemptIdx : Nat → Nat → List Nat
  | 0, i => [i]
  | n + 1, i => i :: attemptIdx n (i + 1)

/-- `RetryStrategy.execute_with_retry`: at most `1 + max_retries` attempts,
starting with `initial_delay` and exponential backoff. -/
def executeWithRetry (op : Nat → Except E A) (maxRetries : Nat)
    (initialDelay backoff : ℚ) : Except E A × List ℚ × List Nat :=
  retryGo op backoff maxRetries initialDelay 0

/-! ## CookieManager (databases/session/manager.py lines 25-88) -/

/-- Result of parsing a stored `last_updated` ISO string:
`parsed t` when `datetime.fromisoformat` succeeds (with `t` the timestamp
in seconds), `malformed` when it raises `ValueError`/`TypeError`. -/
inductive Stamp where
  | parsed (t : Int)
  | malformed
deriving DecidableEq, Repr

/-- The cookie dict stored under `crawler:cookies:<domain>`; `lastUpdated
= none` models a dict without the `last_updated` key. -/
structure CookieData where
  cookies : List String
  userAgent : Option String
  lastUpdated : Option Stamp
deriving DecidableEq, Repr

/-- `CookieManager.min_session_age` (manager.py line 31). -/
def minSessionAge : Int := 1800

/-- `CookieManager.is_session_expired` (manager.py lines 33-43).  The raw
input is the storage load result, `none` modelling the empty/falsy dict.
Expired when the dict is falsy, the key is missing, parsing raises, or the
age `now - t` strictly exceeds `minAge`. -/
def isSessionExpired (now minAge : Int) : Option CookieData → Bool
  | none => true
  | some cd =>
    match cd.lastUpdated with
    | none => true
    | some .malformed => true
    | some (.parsed t) => decide (minAge < now - t)

/-- The dict literal `{"cookies": []}` returned by an expired load. -/
def emptyCookieData : CookieData :=
  { cookies := [], userAgent := none, lastUpdated := none }

/-- `CookieManager.load_cookies` (manager.py lines 56-64): load raw data
from storage and return it, unless the session is expired, in which case
return a session with an empty cookie list. -/
def loadCookies (now minAge : Int) (raw : Option CookieData) : CookieData :=
  if isSessionExpired now minAge raw then emptyCookieData
  else
    match raw with
    | some cd => cd
    | none => emptyCookieData

/-- The session dict built by `CookieManager.generate_new_session`
(manager.py lines 66-75): empty cookies, a fresh user agent from the
generator oracle, `last_updated = now`. -/
def freshSession (freshUA : String) (now : Int) : CookieData :=
  { cookies := [], userAgent := some freshUA, lastUpdated := some (.parsed now) }

/-! ## SessionManager.apply_cookies_and_session (manager.py lines 141-251) -/

/-- The per-domain slice of the backing store the session manager mutates:
the cookie key, the status key and the bounded error list (most recent
first). -/
structure DomainStore where
  cookie : Option CookieData
  status : Option String
  errors : List String
deriving DecidableEq, Repr

/-- `SessionStatusManager.update_status`. -/
def updateStatus (v : String) (st : DomainStore) : DomainStore :=
  { st with status := some v }

/-- `SessionStatusManager.record_error` through `add_to_list`: `lpush`
then `ltrim` to 10 entries. -/
def recordError (msg : String) (st : DomainStore) : DomainStore :=
  { st with errors := (msg :: st.errors).take 10 }

/-- `CookieManager.clear_cookies` through `storage.delete`. -/
def clearCookie (st : DomainStore) : DomainStore :=
  { st with cookie := none }

/-- `storage.save("cookie", domain, data)`. -/
def saveCookie (c : CookieData) (st : DomainStore) : DomainStore :=
  { st with cookie := some c }

/-- `CookieManager.get_or_create_session` (manager.py lines 77-84): load
the cookies; when the loaded session has no cookies, generate, persist
and return a fresh one. -/
def getOrCreateSession (freshUA : String) (now minAge : Int) (st : DomainStore) :
    CookieData × DomainStore :=
  let s := loadCookies now minAge st.cookie
  if s.cookies = [] then
    (freshSession freshUA now, saveCookie (freshSession freshUA now) st)
  else (s, st)

/-- The status string `f"failed_after_N_retries"` (manager.py line 243). -/
def failedStatus (maxRetries : Nat) : String :=
  "failed_after_" ++ toString maxRetries ++ "_retries"

/-- The `SessionError` message raised on validation failure (manager.py
line 219), recorded by `record_error` via `str(last_error)`. -/
def sessionErrorMsg (domain : String) : String :=
  "세션 유효성 검증 실패: " ++ domain

/-- Result of `apply_cookies_and_session`: the store after the call, the
number of `SessionValidator.validate` invocations, the loop's `success`
flag, and the performed backoff sleeps.  The Python function itself
returns the driver unconditionally (it catches every `SessionError`), so
the model is a total function. -/
structure ApplyOut where
  store : DomainStore
  validations : Nat
  success : Bool
  sleeps : List ℚ
deriving DecidableEq, Repr

/-- The load-and-apply prelude of one iteration (manager.py lines
162-208): load the session via `load_cookies`, and when it has no cookies
generate and persist a fresh one (`generate_new_session`); the user-agent
script, navigation and per-cookie `add_cookie` calls touch only the
driver. -/
def applyPrep (freshUA : String) (now minAge : Int) (st : DomainStore) : DomainStore :=
  if (loadCookies now minAge st.cookie).cookies = [] then
    saveCookie (freshSession freshUA now) st
  else st

/-- The retry-exhaustion continuation of one failed iteration (manager.py
lines 230-239): clear the stored cookies, mark the status `invalid`, and
persist a freshly generated session (the `time.sleep` and backoff update
happen alongside and are recorded in `ApplyOut.sleeps`). -/
def applyInvalidate (freshUA : String) (now : Int) (st : DomainStore) : DomainStore :=
  saveCookie (freshSession freshUA now) (updateStatus "invalid" (clearCookie st))

/-- The retry while-loop of `apply_cookies_and_session` (manager.py lines
160-244), for runs where the driver operations succeed, so that the only
caught exception is the `SessionError` raised when `validator` returns
false.  `validator k` is the oracle verdict of `SessionValidator.validate`
on attempt `k` (0-based); the first argument is the number of retries
still allowed (`max_retries - retries`).  One iteration: `applyPrep`,
validate; on success mark the status `valid`; on failure with retries
remaining run `applyInvalidate`, sleep `delay`, back off and loop; on
exhaustion mark the status `failed_after_N_retries`. -/
def applyGo (validator : Nat → Bool) (freshUA : String) (maxRetries : Nat)
    (backoff : ℚ) (now minAge : Int) :
    Nat → Nat → ℚ → DomainStore → ApplyOut
  | 0, k, _, st =>
    if validator k then
      { store := updateStatus "valid" (applyPrep freshUA now minAge st),
        validations := 1, success := true, sleeps := [] }
    else
      { store := updateStatus (failedStatus maxRetries) (applyPrep freshUA now minAge st),
        validations := 1, success := false, sleeps := [] }
  | rl + 1, k, delay, st =>
    if validator k then
      { store := updateStatus "valid" (applyPrep freshUA now minAge st),
        validations := 1, success := true, sleeps := [] }
    else
      let r := applyGo validator freshUA maxRetries backoff now minAge rl (k + 1)
          (delay * backoff) (applyInvalidate freshUA now (applyPrep freshUA now minAge st))
      { store := r.store, validations := r.validations + 1, success := r.success,
        sleeps := delay :: r.sleeps }

/-- `SessionManager.apply_cookies_and_session` (manager.py lines 141-251):
run the retry loop, and if it ends without success append exactly one
error record (`if not success and last_error`) before returning the
driver. -/
def applyCookiesAndSession (validator : Nat → Bool) (freshUA : String)
    (maxRetries : Nat) (initialDelay backoff : ℚ) (now minAge : Int)
    (domain : String) (st : DomainStore) : ApplyOut :=
  let r := applyGo validator freshUA maxRetries backoff now minAge maxRetries 0 initialDelay st
  if r.success then r
  else { r with store := recordError (sessionErrorMsg domain) r.store }

/-! ## SessionStorage (databases/session/storage.py) -/

/-- Outcome of one Redis call (together with the subsequent
`json.loads`): a value, or a raised exception — both the Redis error and
the parse error are caught by the same `except` clause. -/
inductive StoreOutcome (α : Type) where
  | ok (a : α)
  | exn
deriving DecidableEq, Repr

/-- The key-type dispatch shared by `save`/`load`/`delete` (storage.py
lines 51-59): `none` models the unknown-key-type early return. -/
def storageKey (keyType domain : String) : Option String :=
  if keyType = "cookie" then some ("crawler:cookies:" ++ domain)
  else if keyType = "session" then some ("crawler:sessions:" ++ domain)
  else if keyType = "status" then some ("crawler:status:" ++ domain)
  else none

/-- `SessionStorage.load` (storage.py lines 49-68).  `redisGet key`
models `self.redis.get(key)` plus `json.loads`; `.ok none` is a missing
or TTL-expired key (falsy reply), `.exn` a raised store/parse error.
Every non-value path returns the empty dict (modelled `none`). -/
def storageLoad (α : Type) (redisGet : String → StoreOutcome (Option α))
    (keyType domain : String) : Option α :=
  match storageKey keyType domain with
  | none => none
  | some key =>
    match redisGet key with
    | .exn => none
    | .ok none => none
    | .ok (some d) => some d

/-- The errors list key used by `add_to_list`/`get_list` (storage.py
lines 93, 110). -/
def errorsKey (domain : String) : String :=
  "crawler:status:" ++ domain ++ ":errors"

/-- `SessionStorage.get_list` (storage.py lines 107-120): only the
`errors` key type is known; a raised `lrange`/parse error yields `[]`,
and an empty reply also yields `[]`. -/
def storageGetList (α : Type) (redisLrange : String → StoreOutcome (List α))
    (keyType domain : String) : List α :=
  if keyType = "errors" then
    match redisLrange (errorsKey domain) with
    | .exn => []
    | .ok items => items
  else []

/-! ## RelevanceScorer (relevant_crawler.py lines 81-116) -/

/-- Title weighting of `is_relevant_content` (lines 99-100): when a title
is present, prepend it twice to the extracted text. -/
def weightedText (title text : String) : String :=
  if title = "" then text else title ++ " " ++ title ++ " " ++ text

/-- The exception fallback of `is_relevant_content` (line 116):
case-insensitive substring match of any keyword in the page text. -/
def keywordFallback (keywords : List String) (text : String) : Bool :=
  keywords.any fun kw => hasSub (lowerData text) (lowerData kw)

/-- `RelevantAsyncWebCrawler.is_relevant_content` (lines 81-116).
`extract` abstracts BeautifulSoup text extraction, and `tfidf kws text`
abstracts the TF-IDF + cosine-similarity computation: `some sim` when
vectorization succeeds with similarity `sim`, `none` when it raises.  A
falsy `content` is rejected outright; on success the verdict is
`sim ≥ relevance_threshold`; on failure the keyword fallback decides. -/
def isRelevantContent (keywords : List String) (threshold : ℚ)
    (extract : String → String) (tfidf : String → String → Option ℚ)
    (content title : String) : Bool :=
  if content = "" then false
  else
    let text := weightedText title (extract content)
    let keywordsText := String.intercalate " " keywords
    match tfidf keywordsText text with
    | some sim => decide (threshold ≤ sim)
    | none => keywordFallback keywords text

/-! ## Session restart (human_like.py lines 228-294, anti_bot_utils.py lines 410-441) -/

/-- Externally visible actions of a session restart, in order. -/
inductive RestartEvent where
  | sleep (seconds : ℚ)
  | quitDriver
  | newDriver
deriving DecidableEq, Repr

/-- Event trace of `AntiRobotSearch.restart_session` (human_like.py lines
228-294): sleep the fixed `wait_time` first, then quit the old driver,
then create the new one (with a freshly randomized user-agent string and
the profile directory /tmp/temp_chrome_profile). -/
def antiRobotSearchRestart (waitTime : ℚ) : List RestartEvent :=
  [.sleep waitTime, .quitDriver, .newDriver]

/-- The default `wait_time` of `AntiRobotSearch.restart_session`
(human_like.py line 228). -/
def antiRobotSearchDefaultWait : ℚ := 10

/-- Event trace of `AntiRobotGoogleSearch.restart_session`
(anti_bot_utils.py lines 410-441): quit the old driver, sleep
`random.randint(wait_time, wait_time + 15)` seconds (`draw` is the random
choice among the 16 inclusive values), then create the new driver via
`chrome_option_setting`. -/
def antiRobotGoogleRestart (waitTime : Nat) (draw : Fin 16) : List RestartEvent :=
  [.quitDriver, .sleep ((waitTime + draw.val : Nat) : ℚ), .newDriver]

/-- The default `wait_time` of `AntiRobotGoogleSearch.restart_session`
(anti_bot_utils.py line 410). -/
def antiRobotGoogleDefaultWait : Nat := 30

/-! ## RobotDetector.is_robot_page (detector.py lines 24-104) and
SessionValidator.validate (validator.py lines 24-52) -/

/-- Outcome of one Selenium driver call: a value, or a raised Selenium
exception (`SeleniumExceptionType`). -/
inductive SelOutcome (α : Type) where
  | ok (a : α)
  | raised
deriving DecidableEq, Repr

/-- `clear_robot_indicators` (detector.py lines 33-42). -/
def clearRobotIndicators : List String :=
  ["captcha", "recaptcha", "hcaptcha", "bot detection", "unusual traffic",
   "비정상적인 트래픽", "자동화된 쿼리", "automated query"]

/-- `robot_phrases` (detector.py lines 73-80). -/
def robotPhrases : List String :=
  ["please verify you are a human", "i\x27m not a robot", "자동화된 요청으로부터",
   "보안 확인", "security check", "automated system"]

/-- The driver observations `is_robot_page` makes, each fallible: the page
source (check 1), whether any of the captcha CSS selectors matches an
element (check 2, collapsing the `find_elements` loop), the current URL
(check 3), and the texts of the important content containers (check 4). -/
structure RobotDriverView where
  pageSource : SelOutcome String
  captchaElementFound : SelOutcome Bool
  currentUrl : SelOutcome String
  importantTexts : SelOutcome (List String)
deriving DecidableEq

/-- `RobotDetector.is_robot_page` (detector.py lines 24-104): four checks
in order, first hit wins; a Selenium exception anywhere inside the outer
`try` returns `False`, and an exception inside check 4's inner bare
`try/except` is ignored, after which the function falls through to
`return False`. -/
def isRobotPage (d : RobotDriverView) : Bool :=
  match d.pageSource with
  | .raised => false
  | .ok src =>
    if clearRobotIndicators.any (fun ind => hasSub (lowerData src) ind.data) then true
    else
      match d.captchaElementFound with
      | .raised => false
      | .ok true => true
      | .ok false =>
        match d.currentUrl with
        | .raised => false
        | .ok url =>
          if hasSub (lowerData url) "captcha".data || hasSub (lowerData url) "challenge".data then true
          else
            match d.importantTexts with
            | .raised => false
            | .ok texts =>
              texts.any fun t => robotPhrases.any fun p => hasSub (lowerData t) p.data

/-- Whether evaluating `is_robot_page` on this view hits a raised Selenium
exception (the short-circuit order matches the checks). -/
def robotCheckRaised (d : RobotDriverView) : Bool :=
  match d.pageSource with
  | .raised => true
  | .ok src =>
    if clearRobotIndicators.any (fun ind => hasSub (lowerData src) ind.data) then false
    else
      match d.captchaElementFound with
      | .raised => true
      | .ok true => false
      | .ok false =>
        match d.currentUrl with
        | .raised => true
        | .ok url =>
          if hasSub (lowerData url) "captcha".data || hasSub (lowerData url) "challenge".data then false
          else
            match d.importantTexts with
            | .raised => true
            | .ok _ => false

/-- `block_indicators` of `SessionValidator` (validator.py lines 12-22). -/
def blockIndicators : List String :=
  ["access denied", "blocked", "captcha", "robot", "automated",
   "too many requests", "rate limit", "접근이 차단", "로봇"]

/-- The driver observations `SessionValidator.validate` makes: reading
`current_url`, the navigation (`refresh` when already on the check URL,
`get` otherwise), and the page source. -/
structure ValidatorDriverView where
  currentUrl : SelOutcome String
  navigation : SelOutcome Unit
  pageSource : SelOutcome String
deriving DecidableEq

/-- `SessionValidator.validate` (validator.py lines 24-52): navigate to
the check URL (refreshing when already there), scan the lowercased page
source for any block indicator; false on a match or on any raised
exception (the `except` is a bare `Exception` catch), true otherwise. -/
def validateSession (d : ValidatorDriverView) : Bool :=
  match d.currentUrl with
  | .raised => false
  | .ok _ =>
    match d.navigation with
    | .raised => false
    | .ok _ =>
      match d.pageSource with
      | .raised => false
      | .ok src =>
        blockIndicators.all fun ind => !(hasSub (lowerData src) ind.data)

/-- Whether evaluating `validate` on this view hits a raised exception. -/
def validateRaised (d : ValidatorDriverView) : Bool :=
  match d.currentUrl with
  | .raised => true
  | .ok _ =>
    match d.navigation with
    | .raised => true
    | .ok _ =>
      match d.pageSource with
      | .raised => true
      | .ok _ => false

/-! ## Helper lemmas: crawl-loop invariants -/

/-- Any state property preserved by the loop body is preserved by the
whole (fuel-bounded) loop. -/
theorem crawlRun_preserve (P : CrawlState → Prop) (step : CrawlState → CrawlState)
    (mp : Nat) (hstep : ∀ s, P s → P (step s)) :
    ∀ fuel s, P s → P (crawlRun step mp fuel s) := by
  intro fuel
  induction fuel with
  | zero => intro s h; exact h
  | succ n ih =>
    intro s h
    rw [crawlRun]
    split
    · exact h
    · exact ih _ (hstep s h)

/-- Processing a popped entry without recording results preserves the
dedup invariant. -/
theorem good_process_noresult (s : CrawlState) (url : String) (depth : Nat)
    (q : List (String × Nat)) (h : GoodState s) (hnv : url ∉ s.visited) :
    GoodState { visited := url :: s.visited, queue := q,
                results := s.results, fetchLog := (url, depth) :: s.fetchLog } := by
  obtain ⟨hv, hr, hf, hrv, hfv⟩ := h
  refine ⟨List.nodup_cons.mpr ⟨hnv, hv⟩, hr, ?_, ?_, ?_⟩
  · simp only [List.map_cons]
    exact List.nodup_cons.mpr ⟨fun hm => hnv (hfv _ hm), hf⟩
  · intro u hu
    exact List.mem_cons_of_mem _ (hrv u hu)
  · intro u hu
    simp only [List.map_cons, List.mem_cons] at hu
    rcases hu with rfl | hu
    · exact List.mem_cons_self _ _
    · exact List.mem_cons_of_mem _ (hfv u hu)

/-- Processing a popped entry and recording its results preserves the
dedup invariant. -/
theorem good_process_result (s : CrawlState) (url : String) (depth : Nat)
    (q : List (String × Nat)) (recs : List LinkRecord)
    (h : GoodState s) (hnv : url ∉ s.visited) :
    GoodState { visited := url :: s.visited, queue := q,
                results := (url, recs) :: s.results,
                fetchLog := (url, depth) :: s.fetchLog } := by
  obtain ⟨hv, hr, hf, hrv, hfv⟩ := h
  refine ⟨List.nodup_cons.mpr ⟨hnv, hv⟩, ?_, ?_, ?_, ?_⟩
  · simp only [List.map_cons]
    exact List.nodup_cons.mpr ⟨fun hm => hnv (hrv _ hm), hr⟩
  · simp only [List.map_cons]
    exact List.nodup_cons.mpr ⟨fun hm => hnv (hfv _ hm), hf⟩
  · intro u hu
    simp only [List.map_cons, List.mem_cons] at hu
    rcases hu with rfl | hu
    · exact List.mem_cons_self _ _
    · exact List.mem_cons_of_mem _ (hrv u hu)
  · intro u hu
    simp only [List.map_cons, List.mem_cons] at hu
    rcases hu with rfl | hu
    · exact List.mem_cons_self _ _
    · exact List.mem_cons_of_mem _ (hfv u hu)

/-- The base crawl loop body preserves the dedup invariant. -/
theorem baseStep_good (web : String → Option Page) (d : Nat) (s : CrawlState)
    (h : GoodState s) : GoodState (baseStep web d s) := by
  unfold baseStep
  split
  · exact h
  · rename_i url depth rest heq
    split
    · exact h
    · rename_i hcond
      have hnv : url ∉ s.visited := fun hm => hcond (Or.inl hm)
      split
      · exact good_process_noresult s url depth rest h hnv
      · rename_i page hw
        split
        · exact good_process_result s url depth _ page.records h hnv
        · exact good_process_noresult s url depth rest h hnv

/-- The relevance-filtered crawl loop body preserves the dedup
invariant. -/
theorem relevantStep_good (web : String → Option Page) (nl : String → String)
    (rel : String → Bool) (kw : List String) (d : Nat) (s : CrawlState)
    (h : GoodState s) : GoodState (relevantStep web nl rel kw d s) := by
  unfold relevantStep
  split
  · exact h
  · rename_i url depth rest heq
    split
    · exact h
    · rename_i hcond
      have hnv : url ∉ s.visited := fun hm => hcond (Or.inl hm)
      split
      · exact h
      · split
        · exact good_process_noresult s url depth rest h hnv
        · rename_i page hw
          split
          · split
            · exact good_process_result s url depth _ page.records h hnv
            · exact good_process_noresult s url depth rest h hnv
          · exact good_process_noresult s url depth rest h hnv

/-- The crawler's initial state satisfies the dedup invariant. -/
theorem initState_good (startUrl : String) : GoodState (initState startUrl) := by
  refine ⟨List.nodup_nil, List.nodup_nil, List.nodup_nil, ?_, ?_⟩ <;>
    intro u hu <;> simp [initState] at hu

/-- The base crawl loop body preserves the depth invariant. -/
theorem baseStep_depthOk (web : String → Option Page) (d : Nat) (s : CrawlState)
    (h : DepthOk d s) : DepthOk d (baseStep web d s) := by
  obtain ⟨hq, hf⟩ := h
  unfold baseStep
  split
  · exact ⟨hq, hf⟩
  · rename_i url depth rest heq
    have hrest : ∀ e ∈ rest, e.2 ≤ d := fun e he =>
      hq e (heq ▸ List.mem_cons_of_mem _ he)
    split
    · exact ⟨hrest, hf⟩
    · rename_i hcond
      have hdep : depth ≤ d := Nat.le_of_not_lt fun hlt => hcond (Or.inr hlt)
      have hflog : ∀ e ∈ (url, depth) :: s.fetchLog, e.2 ≤ d := by
        intro e he
        rcases List.mem_cons.mp he with rfl | he
        · exact hdep
        · exact hf e he
      split
      · exact ⟨hrest, hflog⟩
      · rename_i page hw
        split
        · rename_i hlt
          refine ⟨?_, hflog⟩
          intro e he
          rcases List.mem_append.mp he with he | he
          · exact hrest e he
          · obtain ⟨l, _, rfl⟩ := List.mem_map.mp he
            exact hlt
        · exact ⟨hrest, hflog⟩

/-- The relevance-filtered crawl loop body preserves the depth
invariant. -/
theorem relevantStep_depthOk (web : String → Option Page) (nl : String → String)
    (rel : String → Bool) (kw : List String) (d : Nat) (s : CrawlState)
    (h : DepthOk d s) : DepthOk d (relevantStep web nl rel kw d s) := by
  obtain ⟨hq, hf⟩ := h
  unfold relevantStep
  split
  · exact ⟨hq, hf⟩
  · rename_i url depth rest heq
    have hrest : ∀ e ∈ rest, e.2 ≤ d := fun e he =>
      hq e (heq ▸ List.mem_cons_of_mem _ he)
    split
    · exact ⟨hrest, hf⟩
    · rename_i hcond
      have hdep : depth ≤ d := Nat.le_of_not_lt fun hlt => hcond (Or.inr hlt)
      have hflog : ∀ e ∈ (url, depth) :: s.fetchLog, e.2 ≤ d := by
        intro e he
        rcases List.mem_cons.mp he with rfl | he
        · exact hdep
        · exact hf e he
      split
      · exact ⟨hrest, hf⟩
      · split
        · exact ⟨hrest, hflog⟩
        · rename_i page hw
          split
          · split
            · rename_i hlt
              refine ⟨?_, hflog⟩
              intro e he
              rcases List.mem_append.mp he with he | he
              · exact hrest e he
              · obtain ⟨l, _, rfl⟩ := List.mem_map.mp he
                exact hlt
            · exact ⟨hrest, hflog⟩
          · exact ⟨hrest, hflog⟩

/-- The crawler's initial state satisfies the depth invariant. -/
theorem initState_depthOk (d : Nat) (startUrl : String) :
    DepthOk d (initState startUrl) := by
  refine ⟨?_, ?_⟩ <;> intro e he <;> simp [initState] at he
  subst he
  exact Nat.zero_le d

/-- The base crawl loop body never removes a results entry. -/
theorem baseStep_results_mono (web : String → Option Page) (d : Nat)
    (s : CrawlState) (x : String × List LinkRecord) (h : x ∈ s.results) :
    x ∈ (baseStep web d s).results := by
  unfold baseStep
  split
  · exact h
  · split
    · exact h
    · split
      · exact h
      · split
        · exact List.mem_cons_of_mem _ h
        · exact h

/-- The relevance-filtered crawl loop body never removes a results
entry. -/
theorem relevantStep_results_mono (web : String → Option Page)
    (nl : String → String) (rel : String → Bool) (kw : List String) (d : Nat)
    (s : CrawlState) (x : String × List LinkRecord) (h : x ∈ s.results) :
    x ∈ (relevantStep web nl rel kw d s).results := by
  unfold relevantStep
  split
  · exact h
  · split
    · exact h
    · split
      · exact h
      · split
        · exact h
        · split
          · split
            · exact List.mem_cons_of_mem _ h
            · exact h
          · exact h

/-- The first iteration of the base crawl on a fetchable seed records the
seed's extracted links (when `max_depth ≥ 1`). -/
theorem baseStep_first (web : String → Option Page) (d : Nat) (start : String)
    (page : Page) (hweb : web start = some page) (hd : 1 ≤ d) :
    (baseStep web d (initState start)).results = [(start, page.records)] := by
  have h0d : 0 < d := Nat.lt_of_lt_of_le Nat.zero_lt_one hd
  unfold baseStep initState
  simp [hweb, h0d]

/-- The first iteration of the relevance-filtered crawl on a fetchable
seed records the seed's extracted links (when `max_depth ≥ 1`),
regardless of the content-relevance verdict. -/
theorem relevantStep_first (web : String → Option Page) (nl : String → String)
    (rel : String → Bool) (kw : List String) (d : Nat) (start : String)
    (page : Page) (hweb : web start = some page) (hd : 1 ≤ d) :
    (relevantStep web nl rel kw d (initState start)).results
      = [(start, page.records)] := by
  have h0d : 0 < d := Nat.lt_of_lt_of_le Nat.zero_lt_one hd
  unfold relevantStep initState
  simp [hweb, h0d]

/-! ## Claim C1 -/

/-- C1 (counterexample): the frontier CAN hold two entries with the same
URL at the same time.  With pages A → {B, C} and B → {C}, `max_depth = 2`,
`max_pages = 10`, the state reachable after two loop iterations has
`url_queue = [(C, 1), (C, 2)]` — the URL C queued twice — because the
`link not in self.visited_urls` push guard checks only visited URLs, not
URLs already waiting in the queue. -/
theorem c1_counterexample :
    ¬ ((crawlRun (baseStep webDup 2) 10 2 (initState "A")).queue.map
        Prod.fst).Nodup := by decide

/-- C1 (amended): for every crawl run of either crawler, each URL appears
as a key of the `results` mapping at most once and each URL is fetched at
most once; the dedup is enforced by the visited-set check at pop time, while
the frontier queue itself may transiently hold duplicate URLs. -/
theorem c1_amended (web : String → Option Page) (nl : String → String)
    (rel : String → Bool) (kw : List String) (d mp fuel : Nat) (start : String) :
    (((crawlRun (baseStep web d) mp fuel (initState start)).results.map
        Prod.fst).Nodup
      ∧ ((crawlRun (baseStep web d) mp fuel (initState start)).fetchLog.map
        Prod.fst).Nodup)
  ∧ (((crawlRun (relevantStep web nl rel kw d) mp fuel (initState start)).results.map
        Prod.fst).Nodup
      ∧ ((crawlRun (relevantStep web nl rel kw d) mp fuel (initState start)).fetchLog.map
        Prod.fst).Nodup) := by
  have h1 := crawlRun_preserve GoodState (baseStep web d) mp
    (fun s h => baseStep_good web d s h) fuel _ (initState_good start)
  have h2 := crawlRun_preserve GoodState (relevantStep web nl rel kw d) mp
    (fun s h => relevantStep_good web nl rel kw d s h) fuel _ (initState_good start)
  exact ⟨⟨h1.2.1, h1.2.2.1⟩, ⟨h2.2.1, h2.2.2.1⟩⟩

/-! ## Claim C2 -/

/-- C2 (counterexample): with `max_depth = 0` the seed's extracted-link
record is NOT included in the results even though the seed page is
fetchable: `results[current_url] = url_format` sits under the
`depth < self.max_depth` guard, which is false at `0 < 0`.  The run below
completes (empty queue, fuel to spare) with the seed fetched
(`fetchLog = [(A, 0)]`) and `results = {}`. -/
theorem c2_counterexample :
    webSeed "A" = some ⟨[], [⟨"t", "A", ""⟩]⟩
  ∧ (crawlRun (relevantStep webSeed netloc0 (fun _ => true) ["x"] 0) 5 2
      (initState "A")).fetchLog = [("A", 0)]
  ∧ (crawlRun (relevantStep webSeed netloc0 (fun _ => true) ["x"] 0) 5 2
      (initState "A")).queue = []
  ∧ (crawlRun (relevantStep webSeed netloc0 (fun _ => true) ["x"] 0) 5 2
      (initState "A")).results = [] := by decide

/-- C2 (amended): for every `max_depth ≥ 1` (not `≥ 0`), every keyword
set and every content-relevance verdict, a crawl with a fetchable seed
page includes the start URL's extracted-link record in the returned
results — the depth-0 entry bypasses both relevance gates; at
`max_depth = 0` the record is omitted because results recording sits
under the `depth < max_depth` guard. -/
theorem c2_amended (web : String → Option Page) (nl : String → String)
    (rel : String → Bool) (kw : List String) (d mp fuel : Nat) (start : String)
    (page : Page) (hweb : web start = some page) (hd : 1 ≤ d) (hp : 1 ≤ mp)
    (hf : 1 ≤ fuel) :
    (start, page.records) ∈
      (crawlRun (baseStep web d) mp fuel (initState start)).results
  ∧ (start, page.records) ∈
      (crawlRun (relevantStep web nl rel kw d) mp fuel (initState start)).results := by
  obtain ⟨f, rfl⟩ : ∃ f, fuel = f + 1 := ⟨fuel - 1, by omega⟩
  have hguard : ¬((initState start).queue = []
      ∨ mp ≤ (initState start).visited.length) := by
    simp [initState]
    omega
  constructor
  · rw [crawlRun, if_neg hguard]
    apply crawlRun_preserve (fun s => (start, page.records) ∈ s.results)
      (baseStep web d) mp
      (fun s h => baseStep_results_mono web d s _ h) f
    rw [baseStep_first web d start page hweb hd]
    exact List.mem_singleton.mpr rfl
  · rw [crawlRun, if_neg hguard]
    apply crawlRun_preserve (fun s => (start, page.records) ∈ s.results)
      (relevantStep web nl rel kw d) mp
      (fun s h => relevantStep_results_mono web nl rel kw d s _ h) f
    rw [relevantStep_first web nl rel kw d start page hweb hd]
    exact List.mem_singleton.mpr rfl

/-- Witness for C2 (amended) at `max_depth = 1` on the concrete seed
web. -/
theorem c2_amended_witness :
    ("A", [(⟨"t", "A", ""⟩ : LinkRecord)]) ∈
      (crawlRun (baseStep webSeed 1) 5 1 (initState "A")).results
  ∧ ("A", [(⟨"t", "A", ""⟩ : LinkRecord)]) ∈
      (crawlRun (relevantStep webSeed netloc0 (fun _ => true) ["x"] 1) 5 1
        (initState "A")).results :=
  c2_amended webSeed netloc0 (fun _ => true) ["x"] 1 5 1 "A"
    ⟨[], [⟨"t", "A", ""⟩]⟩ (by decide) (by decide) (by decide) (by decide)

/-! ## Claim C6 -/

/-- C6: for every crawl run of either crawler, no frontier entry with
depth exceeding `max_depth` is ever fetched (every fetched entry in the
ghost fetch log has depth ≤ `max_depth` — a popped entry with
`depth > max_depth` is discarded before the fetch), and every entry in
the frontier queue has depth ≤ `max_depth` (links are pushed at
`depth + 1` only from pages with `depth < max_depth`). -/
theorem c6_depth_bound (web : String → Option Page) (nl : String → String)
    (rel : String → Bool) (kw : List String) (d mp fuel : Nat) (start : String) :
    (∀ e ∈ (crawlRun (baseStep web d) mp fuel (initState start)).fetchLog,
        e.2 ≤ d)
  ∧ (∀ e ∈ (crawlRun (baseStep web d) mp fuel (initState start)).queue,
        e.2 ≤ d)
  ∧ (∀ e ∈ (crawlRun (relevantStep web nl rel kw d) mp fuel (initState start)).fetchLog,
        e.2 ≤ d)
  ∧ (∀ e ∈ (crawlRun (relevantStep web nl rel kw d) mp fuel (initState start)).queue,
        e.2 ≤ d) := by
  have h1 := crawlRun_preserve (DepthOk d) (baseStep web d) mp
    (fun s h => baseStep_depthOk web d s h) fuel _ (initState_depthOk d start)
  have h2 := crawlRun_preserve (DepthOk d) (relevantStep web nl rel kw d) mp
    (fun s h => relevantStep_depthOk web nl rel kw d s h) fuel _
    (initState_depthOk d start)
  exact ⟨h1.2, h1.1, h2.2, h2.1⟩

/-- Witness for C6 on a concrete one-step run: the seed fetch is logged
at depth 0 ≤ 5. -/
theorem c6_depth_bound_witness : (("A", 0) : String × Nat).2 ≤ 5 :=
  (c6_depth_bound webSeed netloc0 (fun _ => true) ["x"] 5 5 1 "A").1
    ("A", 0) (by decide)

/-! ## Claim C3 -/

/-- On a permanently failing operation the retry loop performs all
attempts, sleeps the backoff sequence, and re-raises the error of the
last attempt. -/
theorem retryGo_allfail (op : Nat → Except E A) (errs : Nat → E) (b : ℚ)
    (h : ∀ i, op i = .error (errs i)) :
    ∀ rl i d, retryGo op b rl d i
      = (.error (errs (i + rl)), backoffSleeps b rl d, attemptIdx rl i) := by
  intro rl
  induction rl with
  | zero =>
    intro i d
    rw [retryGo, h i]
    simp [backoffSleeps, attemptIdx]
  | succ n ih =>
    intro i d
    rw [retryGo, h i]
    simp only [ih (i + 1) (d * b), backoffSleeps, attemptIdx]
    have : i + 1 + n = i + (n + 1) := by omega
    rw [this]

/-- C3: with `max_retries = 3`, `initial_delay = 2`,
`backoff_factor = 1.5`, a permanently failing operation is invoked
exactly 4 times (attempts 0, 1, 2, 3), the sleeps between consecutive
attempts are 2, 3 and 4.5 seconds (cumulative 9.5 s), and the exception
of the last attempt (`errs 3`) is re-raised. -/
theorem c3_retry_bound (E A : Type) (op : Nat → Except E A) (errs : Nat → E)
    (h : ∀ i, op i = .error (errs i)) :
    executeWithRetry op 3 2 (3 / 2)
      = (.error (errs 3), [2, 3, 9 / 2], [0, 1, 2, 3])
  ∧ (executeWithRetry op 3 2 (3 / 2)).2.1.sum = 19 / 2 := by
  have he : executeWithRetry op 3 2 (3 / 2)
      = (.error (errs 3), [2, 3, 9 / 2], [0, 1, 2, 3]) := by
    unfold executeWithRetry
    rw [retryGo_allfail op errs (3 / 2) h 3 0 2]
    norm_num [backoffSleeps, attemptIdx]
  refine ⟨he, ?_⟩
  rw [he]
  norm_num

/-- Witness for C3 on a concrete always-failing operation. -/
theorem c3_retry_bound_witness :
    executeWithRetry (fun _ => (.error 7 : Except Nat Unit)) 3 2 (3 / 2)
      = (.error 7, [2, 3, 9 / 2], [0, 1, 2, 3])
  ∧ (executeWithRetry (fun _ => (.error 7 : Except Nat Unit)) 3 2
      (3 / 2)).2.1.sum = 19 / 2 :=
  c3_retry_bound Nat Unit (fun _ => .error 7) (fun _ => 7) (fun _ => rfl)

/-! ## Claim C4 -/

/-- On an always-failing validator the retry loop of
`apply_cookies_and_session` validates once per allowed attempt, ends
unsuccessful with status `failed_after_N_retries`, and leaves the error
list untouched (the single error record is appended after the loop). -/
theorem applyGo_allfail (validator : Nat → Bool) (freshUA : String) (mr : Nat)
    (b : ℚ) (now minAge : Int) (h : ∀ n, validator n = false) :
    ∀ rl k delay st,
      (applyGo validator freshUA mr b now minAge rl k delay st).validations = rl + 1
    ∧ (applyGo validator freshUA mr b now minAge rl k delay st).success = false
    ∧ (applyGo validator freshUA mr b now minAge rl k delay st).store.status
        = some (failedStatus mr)
    ∧ (applyGo validator freshUA mr b now minAge rl k delay st).store.errors
        = st.errors := by
  intro rl
  induction rl with
  | zero =>
    intro k delay st
    rw [applyGo, h k]
    simp only [Bool.false_eq_true, if_false]
    refine ⟨trivial, trivial, rfl, ?_⟩
    simp only [updateStatus, applyPrep]
    split <;> rfl
  | succ n ih =>
    intro k delay st
    obtain ⟨h1, h2, h3, h4⟩ := ih (k + 1) (delay * b)
      (applyInvalidate freshUA now (applyPrep freshUA now minAge st))
    rw [applyGo, h k]
    simp only [Bool.false_eq_true, if_false]
    refine ⟨by rw [h1], h2, h3, ?_⟩
    rw [h4]
    simp only [applyInvalidate, saveCookie, updateStatus, clearCookie, applyPrep]
    split <;> rfl

/-- C4: for every domain and initial store state, when the validator
reports the session blocked on every attempt, `apply_cookies_and_session`
performs exactly `max_retries + 1` validation attempts, sets the stored
status to `failed_after_<max_retries>_retries`, appends exactly one error
record to the domain's (10-bounded) error list, and finishes without
raising (`success = false` is reported through state, the driver is
returned). -/
theorem c4_session_exhaustion (validator : Nat → Bool) (freshUA : String)
    (mr : Nat) (d0 b : ℚ) (now minAge : Int) (domain : String)
    (st : DomainStore) (h : ∀ n, validator n = false) :
    (applyCookiesAndSession validator freshUA mr d0 b now minAge domain st).validations
      = mr + 1
  ∧ (applyCookiesAndSession validator freshUA mr d0 b now minAge domain st).store.status
      = some (failedStatus mr)
  ∧ (applyCookiesAndSession validator freshUA mr d0 b now minAge domain st).store.errors
      = (sessionErrorMsg domain :: st.errors).take 10
  ∧ (applyCookiesAndSession validator freshUA mr d0 b now minAge domain st).success
      = false := by
  obtain ⟨h1, h2, h3, h4⟩ := applyGo_allfail validator freshUA mr b now minAge h mr 0 d0 st
  simp [applyCookiesAndSession, h1, h2, h3, h4, recordError]

/-- Witness for C4 with the default policy (`max_retries = 3`,
`initial_delay = 2`, backoff 1.5) on an empty initial store. -/
theorem c4_session_exhaustion_witness :
    (applyCookiesAndSession (fun _ => false) "ua" 3 2 (3 / 2) 0 1800
        "example.com" ⟨none, none, []⟩).validations = 3 + 1
  ∧ (applyCookiesAndSession (fun _ => false) "ua" 3 2 (3 / 2) 0 1800
        "example.com" ⟨none, none, []⟩).store.status = some (failedStatus 3)
  ∧ (applyCookiesAndSession (fun _ => false) "ua" 3 2 (3 / 2) 0 1800
        "example.com" ⟨none, none, []⟩).store.errors
      = (sessionErrorMsg "example.com" :: ([] : List String)).take 10
  ∧ (applyCookiesAndSession (fun _ => false) "ua" 3 2 (3 / 2) 0 1800
        "example.com" ⟨none, none, []⟩).success = false :=
  c4_session_exhaustion (fun _ => false) "ua" 3 2 (3 / 2) 0 1800
    "example.com" ⟨none, none, []⟩ (fun _ => rfl)

/-! ## Claim C5 -/

/-- C5: a stored session whose `last_updated` lies more than
`min_session_age = 1800` seconds in the past is treated as absent by
`load_cookies` — it returns the empty-cookie session even though the raw
store entry is still present — and the load-path regeneration
(`get_or_create_session`) then produces a fresh session; a stored session
with no `last_updated` key, or one whose timestamp fails to parse, is
likewise treated as expired. -/
theorem c5_session_age (now t : Int) (cookies cs : List String)
    (ua ua2 : Option String) (freshUA : String) (st0 : DomainStore)
    (hold : minSessionAge < now - t) :
    loadCookies now minSessionAge
        (some ⟨cookies, ua, some (.parsed t)⟩) = emptyCookieData
  ∧ loadCookies now minSessionAge (some ⟨cs, ua2, none⟩) = emptyCookieData
  ∧ loadCookies now minSessionAge
        (some ⟨cs, ua2, some .malformed⟩) = emptyCookieData
  ∧ (getOrCreateSession freshUA now minSessionAge
        { st0 with cookie := some ⟨cookies, ua, some (.parsed t)⟩ }).1
      = freshSession freshUA now := by
  have he : loadCookies now minSessionAge
      (some ⟨cookies, ua, some (.parsed t)⟩) = emptyCookieData := by
    simp [loadCookies, isSessionExpired, hold]
  refine ⟨he, ?_, ?_, ?_⟩
  · simp [loadCookies, isSessionExpired]
  · simp [loadCookies, isSessionExpired]
  · simp only [getOrCreateSession, he, emptyCookieData]
    rfl

/-- Witness for C5: a session last updated at time 0, loaded at time 2000
(age 2000 s > 1800 s), while the store still holds the key. -/
theorem c5_session_age_witness :
    loadCookies 2000 minSessionAge
        (some ⟨["c"], some "u", some (.parsed 0)⟩) = emptyCookieData
  ∧ loadCookies 2000 minSessionAge
        (some ⟨["c"], some "u", none⟩) = emptyCookieData
  ∧ loadCookies 2000 minSessionAge
        (some ⟨["c"], some "u", some .malformed⟩) = emptyCookieData
  ∧ (getOrCreateSession "fresh" 2000 minSessionAge
        { cookie := some ⟨["c"], some "u", some (.parsed 0)⟩,
          status := none, errors := [] }).1
      = freshSession "fresh" 2000 :=
  c5_session_age 2000 0 ["c"] ["c"] (some "u") (some "u") "fresh"
    ⟨some ⟨["c"], some "u", some (.parsed 0)⟩, none, []⟩ (by decide)

/-! ## Claim C7 -/

/-- C7: whenever TF-IDF vectorization succeeds with similarity `sim`,
`is_relevant_content` accepts exactly when `sim ≥ relevance_threshold`
(so a page whose similarity equals the threshold exactly is accepted —
the comparison is `≥`, not `>`), and when vectorization raises, the
verdict falls back to case-insensitive keyword substring matching over
the (title-weighted) page text. -/
theorem c7_relevance_threshold (keywords : List String) (θ : ℚ)
    (extract : String → String) (tfidf : String → String → Option ℚ)
    (content title : String) (hc : content ≠ "") :
    (∀ sim, tfidf (String.intercalate " " keywords)
          (weightedText title (extract content)) = some sim →
        isRelevantContent keywords θ extract tfidf content title
          = decide (θ ≤ sim))
  ∧ (tfidf (String.intercalate " " keywords)
          (weightedText title (extract content)) = some θ →
        isRelevantContent keywords θ extract tfidf content title = true)
  ∧ (tfidf (String.intercalate " " keywords)
          (weightedText title (extract content)) = none →
        isRelevantContent keywords θ extract tfidf content title
          = keywordFallback keywords (weightedText title (extract content))) := by
  refine ⟨?_, ?_, ?_⟩
  · intro sim hsim
    simp [isRelevantContent, hc, hsim]
  · intro hsim
    simp [isRelevantContent, hc, hsim]
  · intro hnone
    simp [isRelevantContent, hc, hnone]

/-- Witness for C7: a page whose similarity is exactly the default
threshold 0.3 is accepted, and a vectorization failure falls back to the
substring match (here: keyword present in the text). -/
theorem c7_relevance_threshold_witness :
    isRelevantContent ["bitcoin"] (3 / 10) id (fun _ _ => some (3 / 10))
      "bitcoin news" "" = true
  ∧ isRelevantContent ["bitcoin"] (3 / 10) id (fun _ _ => none)
      "bitcoin news" ""
      = keywordFallback ["bitcoin"] (weightedText "" (id "bitcoin news")) :=
  ⟨(c7_relevance_threshold ["bitcoin"] (3 / 10) id (fun _ _ => some (3 / 10))
      "bitcoin news" "" (by decide)).2.1 rfl,
   (c7_relevance_threshold ["bitcoin"] (3 / 10) id (fun _ _ => none)
      "bitcoin news" "" (by decide)).2.2 rfl⟩

/-! ## Claim C8 -/

/-- C8 (counterexample): the claim is false for the cited orchestrator
`AntiRobotSearch.restart_session` (human_like.py).  Its default cooldown
is a fixed 10 seconds — not randomized and not in the 30-45 s range —
and the sleep happens BEFORE the current browser is closed, not between
closing and relaunching. -/
theorem c8_counterexample :
    antiRobotSearchRestart antiRobotSearchDefaultWait
      = [.sleep 10, .quitDriver, .newDriver]
  ∧ ¬(30 ≤ antiRobotSearchDefaultWait ∧ antiRobotSearchDefaultWait ≤ 45) := by
  decide

/-- C8 (amended): on detected blocking, `AntiRobotSearch.restart_session`
(the cited orchestrator, human_like.py) waits a fixed default 10 seconds
before closing the current browser and then launches a new instance with
a freshly randomized user-agent and a disposable profile directory; the
randomized cooldown whose default duration lies in the 30-45 second range
between closing and relaunching is implemented by the other orchestrator,
`AntiRobotGoogleSearch.restart_session` (anti_bot_utils.py). -/
theorem c8_restart_cooldown :
    antiRobotSearchRestart antiRobotSearchDefaultWait
      = [.sleep 10, .quitDriver, .newDriver]
  ∧ (∀ draw : Fin 16,
      antiRobotGoogleRestart antiRobotGoogleDefaultWait draw
        = [.quitDriver, .sleep ((30 + draw.val : Nat) : ℚ), .newDriver]
      ∧ 30 ≤ ((30 + draw.val : Nat) : ℚ)
      ∧ ((30 + draw.val : Nat) : ℚ) ≤ 45) := by
  decide

/-! ## Claim C9 -/

/-- C9: for every key type and domain, a raised store error makes
`SessionStorage.load` return the empty session and
`SessionStorage.get_list` return the empty list instead of propagating;
a missing or TTL-expired key likewise makes `load` return the empty
session, never an error. -/
theorem c9_storage_degrades (α : Type) (keyType domain : String) :
    storageLoad α (fun _ => .exn) keyType domain = none
  ∧ storageGetList α (fun _ => .exn) keyType domain = []
  ∧ storageLoad α (fun _ => .ok none) keyType domain = none := by
  refine ⟨?_, ?_, ?_⟩
  · unfold storageLoad
    split <;> rfl
  · unfold storageGetList
    split <;> rfl
  · unfold storageLoad
    split <;> rfl

/-! ## Claim C10 -/

/-- C10: `RobotDetector.is_robot_page` fails open — on every driver view
where a Selenium exception is raised during any of its four detection
checks it returns false (page treated as not blocked) — whereas
`SessionValidator.validate` fails closed: on every view where its driver
calls raise it returns false (session treated as blocked/invalid). -/
theorem c10_fail_open_vs_closed (d : RobotDriverView) (v : ValidatorDriverView) :
    (robotCheckRaised d = true → isRobotPage d = false)
  ∧ (validateRaised v = true → validateSession v = false) := by
  constructor
  · intro h
    obtain ⟨ps, ce, cu, it⟩ := d
    cases ps with
    | raised => rfl
    | ok src =>
      dsimp only [robotCheckRaised] at h
      dsimp only [isRobotPage]
      split
      · rename_i hc
        rw [if_pos hc] at h
        exact absurd (show false = true from h) (by simp)
      · rename_i hc
        rw [if_neg hc] at h
        cases ce with
        | raised => rfl
        | ok b =>
          cases b with
          | true => exact absurd (show false = true from h) (by simp)
          | false =>
            cases cu with
            | raised => rfl
            | ok url =>
              dsimp only at h ⊢
              split
              · rename_i hc2
                rw [if_pos hc2] at h
                exact absurd (show false = true from h) (by simp)
              · rename_i hc2
                rw [if_neg hc2] at h
                cases it with
                | raised => rfl
                | ok texts => exact absurd (show false = true from h) (by simp)
  · intro h
    obtain ⟨cu, nav, ps⟩ := v
    cases cu with
    | raised => rfl
    | ok u =>
      cases nav with
      | raised => rfl
      | ok x =>
        cases ps with
        | raised => rfl
        | ok src => exact absurd h (by simp [validateRaised])

/-- Witness for C10: a page-source read that raises makes the detector
answer "not blocked", while a current-url read that raises makes the
validator answer "invalid". -/
theorem c10_fail_open_vs_closed_witness :
    isRobotPage ⟨.raised, .ok false, .ok "", .ok []⟩ = false
  ∧ validateSession ⟨.raised, .ok (), .ok ""⟩ = false :=
  ⟨(c10_fail_open_vs_closed ⟨.raised, .ok false, .ok "", .ok []⟩
      ⟨.raised, .ok (), .ok ""⟩).1 rfl,
   (c10_fail_open_vs_closed ⟨.raised, .ok false, .ok "", .ok []⟩
      ⟨.raised, .ok (), .ok ""⟩).2 rfl⟩

end CrawlCluster
